import Mathlib

/-!
Shallow embedding of the investment_advisor_app repository
(`utils.py`, `investment_advisor_app.py`, `investment_advisor_final.py`,
`investment_advisor_app_claude.py`) together with theorems settling the
specification claims about it.

Conventions of the embedding:
* Python numbers (amounts, rates, chart values) are modelled as `ℚ`;
  year counts and month counts as `ℕ`.
* Python decimal literals such as `0.05` denote the corresponding exact
  rationals.
* Python string containment (`needle in hay`) is modelled by the
  executable `hasSubstr` on `List Char`, and `str.lower()` by mapping
  `Char.toLower` (the messages involved are ASCII).
* `np.random.normal(mu, sigma)` is modelled as `mu + sigma * z k`,
  where `z : ℕ → ℚ` is the stream of standard normal draws consumed
  sequentially, and `datetime.now()`-derived month labels are abstracted
  into a `monthLabel : ℕ → String` parameter.
-/

/-! ## utils.py -/

/-- `utils.calculate_compound_growth(principal, rate, years)`:
`principal * (1 + rate) ** years`. -/
def calculate_compound_growth (principal rate : ℚ) (years : ℕ) : ℚ :=
  principal * (1 + rate) ^ years

/-- The dictionary returned by `utils.generate_roi_scenarios`. -/
structure RoiScenarios where
  years : List ℕ
  conservative : List ℚ
  moderate : List ℚ
  aggressive : List ℚ
deriving DecidableEq

/-- `utils.generate_roi_scenarios(amount, years)`: years list
`range(1, years+1)`; for each year the three scenario lists get
`calculate_compound_growth(amount, rate, year)` appended, with rates
`0.05`, `0.085`, `0.135`. -/
def generate_roi_scenarios (amount : ℚ) (years : ℕ) : RoiScenarios :=
  let yearsList := List.range' 1 years
  { years := yearsList
    conservative := yearsList.map (fun year => calculate_compound_growth amount 0.05 year)
    moderate := yearsList.map (fun year => calculate_compound_growth amount 0.085 year)
    aggressive := yearsList.map (fun year => calculate_compound_growth amount 0.135 year) }

/-- The dictionary returned by `utils.generate_sector_allocation`. -/
structure SectorAllocation where
  sectors : List String
  conservative : List ℕ
  moderate : List ℕ
  aggressive : List ℕ
deriving DecidableEq

/-- `utils.generate_sector_allocation()`: fixed sector names and three
fixed allocation lists. -/
def generate_sector_allocation : SectorAllocation :=
  { sectors := ["Technology", "Healthcare", "Finance", "Real Estate", "Consumer", "Energy", "Other"]
    conservative := [15, 20, 25, 15, 15, 5, 5]
    moderate := [25, 15, 20, 15, 15, 5, 5]
    aggressive := [35, 15, 15, 10, 15, 5, 5] }

/-- The values/title selection of `utils.create_allocation_chart`:
`Very Low`/`Low` take the conservative allocation, `High`/`Very High`
the aggressive one, and everything else the moderate one. -/
def create_allocation_chart_values (risk_tolerance : String) : List ℕ × String :=
  let allocation := generate_sector_allocation
  if risk_tolerance ∈ ["Very Low", "Low"] then
    (allocation.conservative, "Conservative Portfolio Allocation")
  else if risk_tolerance ∈ ["High", "Very High"] then
    (allocation.aggressive, "Aggressive Portfolio Allocation")
  else
    (allocation.moderate, "Moderate Portfolio Allocation")

/-- Error message of `utils.validate_investment_inputs` for a too small amount. -/
def msg_min_amount : String := "Investment amount should be at least 1,000"

/-- Error message of `utils.validate_investment_inputs` for a too large amount. -/
def msg_max_amount : String := "Investment amount exceeds maximum limit of 10,000,000"

/-- Error message of `utils.validate_investment_inputs` for empty preferences. -/
def msg_no_pref : String := "Please select at least one investment preference"

/-- Error message of `utils.validate_investment_inputs` for empty geography. -/
def msg_no_geo : String := "Please select at least one geographic preference"

/-- `utils.validate_investment_inputs(amount, preferences, geography)`:
starts from an empty error list and appends one message for each failed
check, in source order. -/
def validate_investment_inputs (amount : ℚ) (preferences geography : List String) :
    List String :=
  (if amount < 1000 then [msg_min_amount] else []) ++
  (if amount > 10000000 then [msg_max_amount] else []) ++
  (if preferences = [] then [msg_no_pref] else []) ++
  (if geography = [] then [msg_no_geo] else [])

/-! ### Claims C1 and C2 -/

/-- C1: `validate_investment_inputs` returns an empty error list iff the
amount lies in [1000, 10000000] and both selection lists are non-empty;
each violated condition contributes exactly its own message (membership
iff violation, and the list length counts the violated conditions). -/
theorem C1_validate_investment_inputs (amount : ℚ) (preferences geography : List String) :
    (validate_investment_inputs amount preferences geography = [] ↔
      (1000 ≤ amount ∧ amount ≤ 10000000 ∧ preferences ≠ [] ∧ geography ≠ [])) ∧
    (msg_min_amount ∈ validate_investment_inputs amount preferences geography ↔ amount < 1000) ∧
    (msg_max_amount ∈ validate_investment_inputs amount preferences geography ↔
      10000000 < amount) ∧
    (msg_no_pref ∈ validate_investment_inputs amount preferences geography ↔
      preferences = []) ∧
    (msg_no_geo ∈ validate_investment_inputs amount preferences geography ↔ geography = []) ∧
    (validate_investment_inputs amount preferences geography).length =
      (if amount < 1000 then 1 else 0) + (if 10000000 < amount then 1 else 0) +
      (if preferences = [] then 1 else 0) + (if geography = [] then 1 else 0) := by
  unfold validate_investment_inputs
  split_ifs with h1 h2 h3 h4 <;>
    simp_all +decide [msg_min_amount, msg_max_amount, msg_no_pref, msg_no_geo,
      not_lt, le_of_lt]

/-- C2: `calculate_compound_growth` is the closed-form compound-interest
formula, and for `years ≥ 1` the three scenario lists of
`generate_roi_scenarios` have length `years` and their entry for year
`y` (position `y - 1`) is `calculate_compound_growth` at rate `0.05`,
`0.085`, `0.135` respectively. -/
theorem C2_compound_growth_and_scenarios (principal rate : ℚ) (pyears : ℕ)
    (amount : ℚ) (years y : ℕ) (hyears : 1 ≤ years) (hy1 : 1 ≤ y) (hy2 : y ≤ years) :
    calculate_compound_growth principal rate pyears = principal * (1 + rate) ^ pyears ∧
    (generate_roi_scenarios amount years).conservative.length = years ∧
    (generate_roi_scenarios amount years).moderate.length = years ∧
    (generate_roi_scenarios amount years).aggressive.length = years ∧
    (generate_roi_scenarios amount years).conservative[y - 1]? =
      some (calculate_compound_growth amount 0.05 y) ∧
    (generate_roi_scenarios amount years).moderate[y - 1]? =
      some (calculate_compound_growth amount 0.085 y) ∧
    (generate_roi_scenarios amount years).aggressive[y - 1]? =
      some (calculate_compound_growth amount 0.135 y) := by
  have hidx : y - 1 < years := by omega
  have hyy : 1 + (y - 1) = y := by omega
  refine ⟨rfl, ?_, ?_, ?_, ?_, ?_, ?_⟩ <;>
    simp [generate_roi_scenarios, List.getElem?_map, List.getElem?_range', hidx, hyy]

/-- Witness for C2 at `amount = 1000`, `years = 3`, `y = 2`. -/
theorem C2_compound_growth_and_scenarios_witness :
    calculate_compound_growth 500 (1/10) 2 = 500 * (1 + 1/10) ^ 2 ∧
    (generate_roi_scenarios 1000 3).conservative.length = 3 ∧
    (generate_roi_scenarios 1000 3).moderate.length = 3 ∧
    (generate_roi_scenarios 1000 3).aggressive.length = 3 ∧
    (generate_roi_scenarios 1000 3).conservative[2 - 1]? =
      some (calculate_compound_growth 1000 0.05 2) ∧
    (generate_roi_scenarios 1000 3).moderate[2 - 1]? =
      some (calculate_compound_growth 1000 0.085 2) ∧
    (generate_roi_scenarios 1000 3).aggressive[2 - 1]? =
      some (calculate_compound_growth 1000 0.135 2) :=
  C2_compound_growth_and_scenarios 500 (1/10) 2 1000 3 2 (by decide) (by decide) (by decide)

/-! ### utils.py, continued: monthly performance and currency formatting -/

/-- Categories iterated over by `utils.generate_monthly_performance`. -/
def mp_categories : List String := ["Stocks", "Bonds", "Real Estate", "Commodities"]

/-- Mean of the normal draw per category in `utils.generate_monthly_performance`. -/
def mp_mean (category : String) : ℚ :=
  if category = "Stocks" then 1.2
  else if category = "Bonds" then 0.5
  else if category = "Real Estate" then 0.8
  else 0.3

/-- Standard deviation of the normal draw per category in
`utils.generate_monthly_performance`. -/
def mp_std (category : String) : ℚ :=
  if category = "Stocks" then 2.5
  else if category = "Bonds" then 0.8
  else if category = "Real Estate" then 1.2
  else 3.0

/-- Round a rational to the nearest integer, ties to even
(the rounding of Python's `round`). -/
def roundHalfEven (q : ℚ) : ℤ :=
  let f := ⌊q⌋
  if q - f < 1 / 2 then f
  else if q - f > 1 / 2 then f + 1
  else if Even f then f else f + 1

/-- Python `round(x, 2)`. -/
def round2 (q : ℚ) : ℚ := (roundHalfEven (q * 100) : ℚ) / 100

/-- `utils.generate_monthly_performance(months)`: rows
`(Month, Category, Return)` for each month index `i < months` and each
category, where the return is `round(np.random.normal(mu, sigma), 2)`.
The normal draw is modelled as `mu + sigma * z k` with `z` the stream of
standard draws consumed in iteration order, and the
`datetime.now()`-based month label as `monthLabel i`. -/
def generate_monthly_performance (months : ℕ) (monthLabel : ℕ → String)
    (z : ℕ → ℚ) : List (String × String × ℚ) :=
  (List.range months).flatMap (fun i =>
    (List.range mp_categories.length).map (fun j =>
      let category := mp_categories.getD j ""
      (monthLabel i, category, round2 (mp_mean category + mp_std category * z (mp_categories.length * i + j)))))

/-- `utils.format_currency`: the symbol table `symbols.get(currency, currency + ' ')`,
modelled as an if-chain over the six distinct keys of the dict. The EUR,
GBP and INR entries reproduce the exact (mojibake) code points stored in
the source file. -/
def currency_symbol (currency : String) : String :=
  if currency = "USD" then "$"
  else if currency = "EUR" then "‚Ç¨"
  else if currency = "GBP" then "¬£"
  else if currency = "PKR" then "Rs."
  else if currency = "INR" then "‚Çπ"
  else if currency = "AED" then "AED "
  else currency ++ " "

/-- Two-digit zero-padded rendering of an integer in `[0, 100)`. -/
def pad2int (n : ℤ) : String :=
  if n < 10 then "0" ++ toString n else toString n

/-- Python `f"{x:.2f}"` on a non-negative number: the integer part, a
dot, and the two rounded fractional digits. -/
def fmt2 (q : ℚ) : String :=
  let c := roundHalfEven (q * 100)
  toString (c / 100) ++ "." ++ pad2int (c % 100)

/-- `utils.format_currency(amount, currency)`: millions with suffix `M`,
thousands with suffix `K`, otherwise the plain two-decimal rendering,
each prefixed with the currency symbol. -/
def format_currency (amount : ℚ) (currency : String) : String :=
  let symbol := currency_symbol currency
  if amount ≥ 1000000 then symbol ++ fmt2 (amount / 1000000) ++ "M"
  else if amount ≥ 1000 then symbol ++ fmt2 (amount / 1000) ++ "K"
  else symbol ++ fmt2 amount

/-! ### Claims C8, C9, C10 -/

/-- C8: for positive amount and `years ≥ 1`, each scenario list of
`generate_roi_scenarios` is strictly increasing year over year, and
pointwise conservative < moderate < aggressive. -/
theorem C8_scenarios_monotone (amount : ℚ) (years : ℕ)
    (hamt : 0 < amount) (hyears : 1 ≤ years) :
    (generate_roi_scenarios amount years).conservative.Pairwise (· < ·) ∧
    (generate_roi_scenarios amount years).moderate.Pairwise (· < ·) ∧
    (generate_roi_scenarios amount years).aggressive.Pairwise (· < ·) ∧
    List.Forall₂ (· < ·) (generate_roi_scenarios amount years).conservative
      (generate_roi_scenarios amount years).moderate ∧
    List.Forall₂ (· < ·) (generate_roi_scenarios amount years).moderate
      (generate_roi_scenarios amount years).aggressive := by
  have hpair : ∀ rate : ℚ, 1 < 1 + rate →
      ((List.range' 1 years).map
        (fun year => calculate_compound_growth amount rate year)).Pairwise (· < ·) := by
    intro rate hrate
    refine List.Pairwise.map _ (fun a b hab => ?_) (List.pairwise_lt_range' 1 years)
    exact mul_lt_mul_of_pos_left (pow_lt_pow_right₀ hrate hab) hamt
  have hptwise : ∀ r₁ r₂ : ℚ, 0 ≤ 1 + r₁ → 1 + r₁ < 1 + r₂ →
      List.Forall₂ (· < ·)
        ((List.range' 1 years).map (fun year => calculate_compound_growth amount r₁ year))
        ((List.range' 1 years).map (fun year => calculate_compound_growth amount r₂ year)) := by
    intro r₁ r₂ h0 hlt
    rw [List.forall₂_map_right_iff, List.forall₂_map_left_iff, List.forall₂_same]
    intro y hy
    have hy1 : 1 ≤ y := (List.mem_range'_1.mp hy).1
    exact mul_lt_mul_of_pos_left
      (pow_lt_pow_left₀ hlt h0 (by omega)) hamt
  refine ⟨hpair 0.05 (by norm_num), hpair 0.085 (by norm_num), hpair 0.135 (by norm_num),
    hptwise 0.05 0.085 (by norm_num) (by norm_num),
    hptwise 0.085 0.135 (by norm_num) (by norm_num)⟩

/-- Witness for C8 at `amount = 1000`, `years = 2`. -/
theorem C8_scenarios_monotone_witness :
    (generate_roi_scenarios 1000 2).conservative.Pairwise (· < ·) ∧
    (generate_roi_scenarios 1000 2).moderate.Pairwise (· < ·) ∧
    (generate_roi_scenarios 1000 2).aggressive.Pairwise (· < ·) ∧
    List.Forall₂ (· < ·) (generate_roi_scenarios 1000 2).conservative
      (generate_roi_scenarios 1000 2).moderate ∧
    List.Forall₂ (· < ·) (generate_roi_scenarios 1000 2).moderate
      (generate_roi_scenarios 1000 2).aggressive :=
  C8_scenarios_monotone 1000 2 (by norm_num) (by norm_num)

/-- C9: `generate_sector_allocation` returns three allocation lists of
the same length as the 7-entry sectors list, each summing to 100, and
for every risk tolerance string the values picked by
`create_allocation_chart` sum to 100, with strings outside the five
named risk levels mapped to the moderate allocation. -/
theorem C9_sector_allocation_sums :
    generate_sector_allocation.sectors.length = 7 ∧
    generate_sector_allocation.conservative.length = 7 ∧
    generate_sector_allocation.moderate.length = 7 ∧
    generate_sector_allocation.aggressive.length = 7 ∧
    generate_sector_allocation.conservative.sum = 100 ∧
    generate_sector_allocation.moderate.sum = 100 ∧
    generate_sector_allocation.aggressive.sum = 100 ∧
    (∀ risk_tolerance : String,
      (create_allocation_chart_values risk_tolerance).1.sum = 100 ∧
      (risk_tolerance ∉ ["Very Low", "Low", "Medium", "High", "Very High"] →
        (create_allocation_chart_values risk_tolerance).1 =
          generate_sector_allocation.moderate)) := by
  refine ⟨by decide, by decide, by decide, by decide, by decide, by decide, by decide, ?_⟩
  intro risk_tolerance
  constructor
  · unfold create_allocation_chart_values
    split_ifs <;> decide
  · intro hout
    unfold create_allocation_chart_values
    rw [if_neg, if_neg]
    · simp only [List.mem_cons, List.mem_singleton, List.not_mem_nil] at hout
      push_neg at hout
      simp [hout]
    · simp only [List.mem_cons, List.mem_singleton, List.not_mem_nil] at hout ⊢
      push_neg at hout
      simp [hout]

/-- Witness for C9 at the unnamed risk string `"Crypto"`. -/
theorem C9_sector_allocation_sums_witness :
    (create_allocation_chart_values "Crypto").1.sum = 100 ∧
    (create_allocation_chart_values "Crypto").1 = generate_sector_allocation.moderate :=
  ⟨(C9_sector_allocation_sums.2.2.2.2.2.2.2 "Crypto").1,
    (C9_sector_allocation_sums.2.2.2.2.2.2.2 "Crypto").2 (by decide)⟩

/-- C10: `format_currency` is total: unknown currencies get the
`currency + " "` symbol, amounts of at least a million are rendered in
millions with suffix `M`, amounts in `[1000, 1000000)` in thousands with
suffix `K`, and smaller non-negative amounts plainly, always prefixed
with the currency symbol. -/
theorem C10_format_currency (amount : ℚ) (currency : String) (h0 : 0 ≤ amount) :
    (currency ∉ ["USD", "EUR", "GBP", "PKR", "INR", "AED"] →
      currency_symbol currency = currency ++ " ") ∧
    (1000000 ≤ amount →
      format_currency amount currency =
        currency_symbol currency ++ fmt2 (amount / 1000000) ++ "M") ∧
    (1000 ≤ amount → amount < 1000000 →
      format_currency amount currency =
        currency_symbol currency ++ fmt2 (amount / 1000) ++ "K") ∧
    (amount < 1000 →
      format_currency amount currency = currency_symbol currency ++ fmt2 amount) := by
  refine ⟨?_, ?_, ?_, ?_⟩
  · intro hout
    simp only [List.mem_cons, List.mem_singleton, List.not_mem_nil] at hout
    push_neg at hout
    unfold currency_symbol
    simp [hout]
  · intro h
    unfold format_currency
    rw [if_pos (by exact_mod_cast h)]
  · intro h1 h2
    unfold format_currency
    rw [if_neg (by exact not_le.mpr h2), if_pos (by exact_mod_cast h1)]
  · intro h
    unfold format_currency
    rw [if_neg (by exact not_le.mpr (by linarith)), if_neg (by exact not_le.mpr h)]

/-- Witness for C10 at `amount = 2500000`, `currency = "XYZ"`. -/
theorem C10_format_currency_witness :
    currency_symbol "XYZ" = "XYZ" ++ " " ∧
    format_currency 2500000 "XYZ" =
      currency_symbol "XYZ" ++ fmt2 (2500000 / 1000000) ++ "M" ∧
    format_currency 2500000 "XYZ" = "XYZ 2.50M" :=
  ⟨(C10_format_currency 2500000 "XYZ" (by norm_num)).1 (by decide),
    (C10_format_currency 2500000 "XYZ" (by norm_num)).2.1 (by norm_num),
    by norm_num +decide [format_currency, currency_symbol, fmt2, roundHalfEven, pad2int]⟩

/-! ## String helpers: Python `needle in hay` and `str.lower()` -/

/-- Whether the first list is an initial segment of the second. -/
def listStartsWith : List Char → List Char → Bool
  | [], _ => true
  | _ :: _, [] => false
  | c :: cs, d :: ds => c == d && listStartsWith cs ds

/-- Whether the first list occurs contiguously inside the second
(Python `needle in hay`). -/
def hasSubstr (needle : List Char) : List Char → Bool
  | [] => needle.isEmpty
  | d :: ds => listStartsWith needle (d :: ds) || hasSubstr needle ds

/-- Python `needle in hay` on strings. -/
def strContains (hay needle : String) : Bool := hasSubstr needle.data hay.data

/-- Python `s.lower()` (ASCII case mapping). -/
def strLower (s : String) : String := ⟨s.data.map Char.toLower⟩

/-! ## The three apps' exception handlers -/

/-- Category of the message a handler displays: the canned
authentication message, the canned rate-limit message, or a generic
message carrying the raw exception text. -/
inductive MsgCat where
  | authErr
  | rateErr
  | generic
deriving DecidableEq

/-- Outcome of an app's `except` branch: the message shown to the user,
its category, and the value returned by the runner. -/
structure Handled where
  shown : String
  category : MsgCat
  returned : Option String
deriving DecidableEq

/-- `investment_advisor_app.run_analysis`, `except` branch: lowercases
the exception text, tests `"auth"`/`"key"`, then `"rate"`, shows the
matching canned message, and returns `None`. -/
def app_handle_exception (e : String) : Handled :=
  if strContains (strLower e) "auth" || strContains (strLower e) "key" then
    ⟨"⚠️ Authentication Error: Check your API keys.", .authErr, none⟩
  else if strContains (strLower e) "rate" then
    ⟨"⚠️ Rate Limit: Wait 1 minute and try again.", .rateErr, none⟩
  else
    ⟨"⚠️ Error: " ++ e, .generic, none⟩

/-- `investment_advisor_final.run_analysis`, `except` branch: lowercases
the exception text, tests `"authentication"`/`"api"`/`"key"`, shows the
authentication message or a generic one, and returns `None`. -/
def final_handle_exception (e : String) : Handled :=
  if strContains (strLower e) "authentication" || strContains (strLower e) "api" ||
      strContains (strLower e) "key" then
    ⟨"⚠️ **Authentication Error**: Please verify your access credentials and try again.",
      .authErr, none⟩
  else
    ⟨"⚠️ **Analysis Error**: " ++ e, .generic, none⟩

/-- `investment_advisor_app_claude.run_investment_analysis`, `except`
branch: always shows one generic message and returns `None`. -/
def claude_handle_exception (e : String) : Handled :=
  ⟨"An error occurred during analysis: " ++ e, .generic, none⟩

/-! ### Claim C3 -/

/-- C3 counterexample: the claim says every app selects the canned
message by testing the substrings `"auth"`, `"rate"`, `"key"` of the
lowercased exception text; but `investment_advisor_final.py` separates
the messages `"api problem"` and `"boom"`, which agree on all three of
those substring tests (it actually tests `"authentication"`, `"api"`,
`"key"`). -/
theorem C3_counterexample :
    strContains (strLower "api problem") "auth" = strContains (strLower "boom") "auth" ∧
    strContains (strLower "api problem") "rate" = strContains (strLower "boom") "rate" ∧
    strContains (strLower "api problem") "key" = strContains (strLower "boom") "key" ∧
    (final_handle_exception "api problem").category ≠
      (final_handle_exception "boom").category := by
  decide

/-- C3 as amended: every runner's `except` branch returns `None`;
`investment_advisor_app.py` selects the message category by the
`"auth"`/`"rate"`/`"key"` substring tests of the lowercased text
(messages agreeing on those tests get the same category);
`investment_advisor_final.py` instead selects by the
`"authentication"`/`"api"`/`"key"` tests and has no rate-limit branch;
`investment_advisor_app_claude.py` always shows the generic message. -/
theorem C3_amended_handlers (e e₁ e₂ : String) :
    (app_handle_exception e).returned = none ∧
    (final_handle_exception e).returned = none ∧
    (claude_handle_exception e).returned = none ∧
    (strContains (strLower e₁) "auth" = strContains (strLower e₂) "auth" →
      strContains (strLower e₁) "rate" = strContains (strLower e₂) "rate" →
      strContains (strLower e₁) "key" = strContains (strLower e₂) "key" →
      (app_handle_exception e₁).category = (app_handle_exception e₂).category) ∧
    (strContains (strLower e₁) "authentication" = strContains (strLower e₂) "authentication" →
      strContains (strLower e₁) "api" = strContains (strLower e₂) "api" →
      strContains (strLower e₁) "key" = strContains (strLower e₂) "key" →
      (final_handle_exception e₁).category = (final_handle_exception e₂).category) ∧
    (final_handle_exception e).category ≠ .rateErr ∧
    (claude_handle_exception e).category = .generic := by
  refine ⟨?_, ?_, rfl, ?_, ?_, ?_, rfl⟩
  · unfold app_handle_exception
    split_ifs <;> rfl
  · unfold final_handle_exception
    split_ifs <;> rfl
  · intro h1 h2 h3
    simp only [app_handle_exception, apply_ite Handled.category, h1, h2, h3]
  · intro h1 h2 h3
    simp only [final_handle_exception, apply_ite Handled.category, h1, h2, h3]
  · unfold final_handle_exception
    split_ifs <;> simp

/-- Witness for C3 as amended, at concrete exception texts. -/
theorem C3_amended_handlers_witness :
    (app_handle_exception "Rate limit hit").returned = none ∧
    (final_handle_exception "Rate limit hit").returned = none ∧
    (claude_handle_exception "Rate limit hit").returned = none ∧
    (app_handle_exception "x rate y").category = (app_handle_exception "rate").category ∧
    (final_handle_exception "x api y").category = (final_handle_exception "api").category ∧
    ((final_handle_exception "Rate limit hit").category ≠ MsgCat.rateErr ∧
      (claude_handle_exception "Rate limit hit").category = MsgCat.generic) := by
  obtain ⟨h1, h2, h3, h4, -, h6, h7⟩ := C3_amended_handlers "Rate limit hit" "x rate y" "rate"
  obtain ⟨-, -, -, -, h5', -, -⟩ := C3_amended_handlers "Rate limit hit" "x api y" "api"
  exact ⟨h1, h2, h3, h4 (by decide) (by decide) (by decide),
    h5' (by decide) (by decide) (by decide), h6, h7⟩

/-! ## Chart data of the three apps -/

/-- The `data` dictionary built by a trend/performance bar chart:
months column, returns column, categories column. -/
structure TrendData where
  month : List String
  ret : List ℚ
  category : List String
deriving DecidableEq

/-- `investment_advisor_app.create_trend_chart`: the hard-coded bar data. -/
def app_create_trend_chart_data : TrendData :=
  let months := ["Month 1", "Month 2", "Month 3", "Month 4", "Month 5", "Month 6"]
  { month := (List.replicate 4 months).flatten
    ret := [2.3, 1.8, 3.1, -0.5, 2.8, 4.2, 1.5, 1.2, 1.8, 1.3, 1.6, 2.1,
            3.1, 2.5, 4.2, -1.2, 3.5, 5.1, 0.8, 0.7, 0.9, 0.8, 0.8, 1.0]
    category := List.replicate 6 "Equities" ++ List.replicate 6 "Real Estate" ++
      List.replicate 6 "International" ++ List.replicate 6 "Fixed Income" }

/-- `investment_advisor_final.create_trend_chart`: the hard-coded bar data. -/
def final_create_trend_chart_data : TrendData :=
  let months := ["Month 1", "Month 2", "Month 3", "Month 4", "Month 5", "Month 6"]
  { month := (List.replicate 4 months).flatten
    ret := [2.3, 1.8, 3.1, -0.5, 2.8, 4.2,
            1.5, 1.2, 1.8, 1.3, 1.6, 2.1,
            3.1, 2.5, 4.2, -1.2, 3.5, 5.1,
            0.8, 0.7, 0.9, 0.8, 0.8, 1.0]
    category := List.replicate 6 "Equities" ++ List.replicate 6 "Real Estate" ++
      List.replicate 6 "International" ++ List.replicate 6 "Fixed Income" }

/-- `investment_advisor_app_claude.create_six_month_performance`: the
hard-coded bar data. -/
def claude_create_six_month_performance_data : TrendData :=
  let months := ["Month 1", "Month 2", "Month 3", "Month 4", "Month 5", "Month 6"]
  { month := (List.replicate 4 months).flatten
    ret := [2.3, 1.8, 3.1, -0.5, 2.8, 4.2,
            1.5, 1.2, 1.8, 1.3, 1.6, 2.1,
            3.1, 2.5, 4.2, -1.2, 3.5, 5.1,
            0.8, 0.7, 0.9, 0.8, 0.8, 1.0]
    category := List.replicate 6 "Stock Market" ++ List.replicate 6 "Real Estate" ++
      List.replicate 6 "International" ++ List.replicate 6 "Bonds" }

/-- The curves of a projection chart: the x axis and one y list per trace. -/
structure ProjectionData where
  years_list : List ℕ
  curves : List (List ℚ)
deriving DecidableEq

/-- `investment_advisor_app.create_projection_chart(years)`: multiples
`1.05**i`, `1.085**i`, `1.135**i` for `i` in `range(1, years+1)`. -/
def app_create_projection_chart_data (years : ℕ) : ProjectionData :=
  let years_list := List.range' 1 years
  { years_list := years_list
    curves := [years_list.map (fun i => (1.05 : ℚ) ^ i),
               years_list.map (fun i => (1.085 : ℚ) ^ i),
               years_list.map (fun i => (1.135 : ℚ) ^ i)] }

/-- `investment_advisor_final.create_projection_chart(years)`: same
three compound-growth multiples as the other app file. -/
def final_create_projection_chart_data (years : ℕ) : ProjectionData :=
  let years_list := List.range' 1 years
  { years_list := years_list
    curves := [years_list.map (fun i => (1.05 : ℚ) ^ i),
               years_list.map (fun i => (1.085 : ℚ) ^ i),
               years_list.map (fun i => (1.135 : ℚ) ^ i)] }

/-- `investment_advisor_app_claude.create_roi_visualization(years)`:
multiples `1.08**i`, `1.06**i`, `1.10**i`, `1.04**i`. -/
def claude_create_roi_visualization_data (years : ℕ) : ProjectionData :=
  let years_list := List.range' 1 years
  { years_list := years_list
    curves := [years_list.map (fun i => (1.08 : ℚ) ^ i),
               years_list.map (fun i => (1.06 : ℚ) ^ i),
               years_list.map (fun i => (1.10 : ℚ) ^ i),
               years_list.map (fun i => (1.04 : ℚ) ^ i)] }

/-! ### Claim C4 -/

/-- Helper: the monthly-performance data differs between the all-zero
and the all-two draw streams. -/
theorem monthly_performance_draws_matter :
    generate_monthly_performance 1 (fun _ => "") (fun _ => 0) ≠
      generate_monthly_performance 1 (fun _ => "") (fun _ => 2) := by
  have h0 : generate_monthly_performance 1 (fun _ => "") (fun _ => 0) =
      [("", "Stocks", round2 1.2), ("", "Bonds", round2 0.5),
       ("", "Real Estate", round2 0.8), ("", "Commodities", round2 0.3)] := by
    simp [generate_monthly_performance, mp_categories, mp_mean, mp_std, List.range_succ]
  have h2 : generate_monthly_performance 1 (fun _ => "") (fun _ => 2) =
      [("", "Stocks", round2 (1.2 + 2.5 * 2)), ("", "Bonds", round2 (0.5 + 0.8 * 2)),
       ("", "Real Estate", round2 (0.8 + 1.2 * 2)), ("", "Commodities", round2 (0.3 + 3.0 * 2))] := by
    simp [generate_monthly_performance, mp_categories, mp_mean, mp_std, List.range_succ]
  rw [h0, h2]
  have : round2 1.2 ≠ round2 (1.2 + 2.5 * 2) := by
    norm_num [round2, roundHalfEven]
  simp only [ne_eq, List.cons.injEq, Prod.mk.injEq]
  tauto

/-- C4 counterexample: `utils.generate_monthly_performance` is a
chart-data generator of the repository whose output depends on the
random source: two different draw streams (all draws `0` versus all
draws `2`) give different bar data for the same `months` argument. -/
theorem C4_counterexample :
    generate_monthly_performance 1 (fun _ => "") (fun _ => 0) ≠
      generate_monthly_performance 1 (fun _ => "") (fun _ => 2) :=
  monthly_performance_draws_matter

/-- C4 as amended: the bar-chart data of the three app files are fixed
constants (the two `create_trend_chart`s carry identical bars, and the
Claude file the same returns under other category names), and the
projection curves are determined by the `years` argument alone (the two
`create_projection_chart`s agree at every `years`); but
`utils.generate_monthly_performance` does depend on the random source. -/
theorem C4_amended_chart_determinism :
    app_create_trend_chart_data = final_create_trend_chart_data ∧
    claude_create_six_month_performance_data.ret = app_create_trend_chart_data.ret ∧
    claude_create_six_month_performance_data.month = app_create_trend_chart_data.month ∧
    (∀ years : ℕ, app_create_projection_chart_data years =
      final_create_projection_chart_data years) ∧
    (∃ z₁ z₂ : ℕ → ℚ,
      generate_monthly_performance 1 (fun _ => "") z₁ ≠
        generate_monthly_performance 1 (fun _ => "") z₂) :=
  ⟨rfl, rfl, rfl, fun _ => rfl, ⟨fun _ => 0, fun _ => 2, monthly_performance_draws_matter⟩⟩

/-! ## Report display and download (main functions) -/

/-- A timestamp as consumed by `datetime.now().strftime('%Y%m%d_%H%M%S')`. -/
structure Timestamp where
  year : ℕ
  month : ℕ
  day : ℕ
  hour : ℕ
  minute : ℕ
  second : ℕ

/-- Two-digit zero padding (`%m`, `%d`, `%H`, `%M`, `%S`). -/
def pad2 (n : ℕ) : String :=
  if n < 10 then "0" ++ toString n else toString n

/-- Four-digit zero padding (`%Y`). -/
def pad4 (n : ℕ) : String :=
  if n < 10 then "000" ++ toString n
  else if n < 100 then "00" ++ toString n
  else if n < 1000 then "0" ++ toString n
  else toString n

/-- `datetime.now().strftime('%Y%m%d_%H%M%S')` on the current time `t`. -/
def strftime_YmdHMS (t : Timestamp) : String :=
  pad4 t.year ++ pad2 t.month ++ pad2 t.day ++ "_" ++
    pad2 t.hour ++ pad2 t.minute ++ pad2 t.second

/-- Arguments of an `st.download_button` call. -/
structure Download where
  fileName : String
  mime : String
  payload : String
deriving DecidableEq

/-- Python truthiness of the stored report
(`st.session_state.report`): `None` and the empty string are falsy. -/
def reportTruthy : Option String → Bool
  | none => false
  | some s => !(s == "")

/-- Report section of `investment_advisor_app.main`: when the `done`
flag and the stored report are truthy, the report is rendered and a
download of `str(report).encode('utf-8')` is offered under
`report_<timestamp>.md` with mime `text/markdown`. -/
def app_report_download (done : Bool) (report : Option String) (now : Timestamp) :
    Option Download :=
  if done && reportTruthy report then
    some { fileName := "report_" ++ strftime_YmdHMS now ++ ".md"
           mime := "text/markdown"
           payload := report.getD "" }
  else none

/-- Report section of `investment_advisor_final.main`: as in the other
app file but with the `analysis_done` flag and file name
`investment_report_<timestamp>.md`. -/
def final_report_download (analysis_done : Bool) (report : Option String)
    (now : Timestamp) : Option Download :=
  if analysis_done && reportTruthy report then
    some { fileName := "investment_report_" ++ strftime_YmdHMS now ++ ".md"
           mime := "text/markdown"
           payload := report.getD "" }
  else none

/-- Report section of `investment_advisor_app_claude.main`: gated by the
`analysis_complete` flag and the stored results, file name
`investment_report_<timestamp>.md`. -/
def claude_report_download (analysis_complete : Bool) (results : Option String)
    (now : Timestamp) : Option Download :=
  if analysis_complete && reportTruthy results then
    some { fileName := "investment_report_" ++ strftime_YmdHMS now ++ ".md"
           mime := "text/markdown"
           payload := results.getD "" }
  else none

/-! ### Claim C5 -/

/-- C5: whenever one of the three apps displays a report and offers a
download, the file name embeds the `%Y%m%d_%H%M%S` timestamp and ends in
`.md`, the mime type is `text/markdown`, and the payload is exactly the
stored report text. -/
theorem C5_report_download (done : Bool) (report : Option String) (now : Timestamp)
    (d₁ d₂ d₃ : Download)
    (h₁ : app_report_download done report now = some d₁)
    (h₂ : final_report_download done report now = some d₂)
    (h₃ : claude_report_download done report now = some d₃) :
    d₁.fileName = "report_" ++ strftime_YmdHMS now ++ ".md" ∧
    d₂.fileName = "investment_report_" ++ strftime_YmdHMS now ++ ".md" ∧
    d₃.fileName = "investment_report_" ++ strftime_YmdHMS now ++ ".md" ∧
    d₁.mime = "text/markdown" ∧ d₂.mime = "text/markdown" ∧ d₃.mime = "text/markdown" ∧
    some d₁.payload = report ∧ some d₂.payload = report ∧ some d₃.payload = report := by
  unfold app_report_download at h₁
  unfold final_report_download at h₂
  unfold claude_report_download at h₃
  split_ifs at h₁ h₂ h₃ with hc
  obtain ⟨s, rfl⟩ : ∃ s, report = some s := by
    cases report with
    | none => simp [reportTruthy] at hc
    | some s => exact ⟨s, rfl⟩
  obtain rfl := Option.some.inj h₁
  obtain rfl := Option.some.inj h₂
  obtain rfl := Option.some.inj h₃
  simp

/-- Witness for C5 at a concrete displayed report and timestamp. -/
theorem C5_report_download_witness :
    let now : Timestamp := ⟨2024, 1, 2, 3, 4, 5⟩
    let d₁ : Download := ⟨"report_" ++ strftime_YmdHMS now ++ ".md", "text/markdown", "R"⟩
    let d₂ : Download :=
      ⟨"investment_report_" ++ strftime_YmdHMS now ++ ".md", "text/markdown", "R"⟩
    d₁.fileName = "report_" ++ strftime_YmdHMS now ++ ".md" ∧
    d₂.fileName = "investment_report_" ++ strftime_YmdHMS now ++ ".md" ∧
    d₂.fileName = "investment_report_" ++ strftime_YmdHMS now ++ ".md" ∧
    d₁.mime = "text/markdown" ∧ d₂.mime = "text/markdown" ∧ d₂.mime = "text/markdown" ∧
    some d₁.payload = some "R" ∧ some d₂.payload = some "R" ∧ some d₂.payload = some "R" :=
  C5_report_download true (some "R") ⟨2024, 1, 2, 3, 4, 5⟩ _ _ _ rfl rfl rfl

/-! ## Report-generation button handlers (main functions) -/

/-- The request dictionary assembled by each `main` and passed to the
analysis runner; `amount` and `time_horizon` are numbers, `geography`
and `preferences` are the selections joined with `", "`. -/
structure RequestData where
  amount : ℕ
  currency : String
  geography : String
  preferences : String
  risk_tolerance : String
  time_horizon : ℕ
deriving DecidableEq

/-- What a button handler does: display an error, or invoke the
analysis runner on the assembled request. -/
inductive UiAction where
  | showError : String → UiAction
  | runAnalysis : RequestData → UiAction
deriving DecidableEq

/-- Button handler of `investment_advisor_app.main`: empty credentials
error out first, then empty selections, else the runner is invoked. -/
def app_button_click (api_key search_key : String) (amount : ℕ) (currency : String)
    (geography preferences : List String) (risk_tolerance : String)
    (time_horizon : ℕ) : UiAction :=
  if api_key = "" || search_key = "" then
    .showError "⚠️ Provide credentials in sidebar."
  else if preferences = [] || geography = [] then
    .showError "⚠️ Select at least one type and geography."
  else
    .runAnalysis ⟨amount, currency, String.intercalate ", " geography,
      String.intercalate ", " preferences, risk_tolerance, time_horizon⟩

/-- Button handler of `investment_advisor_final.main`. -/
def final_button_click (api_key search_key : String) (amount : ℕ) (currency : String)
    (geography preferences : List String) (risk_tolerance : String)
    (time_horizon : ℕ) : UiAction :=
  if api_key = "" || search_key = "" then
    .showError "⚠️ Please provide your access credentials in the sidebar."
  else if preferences = [] then
    .showError "⚠️ Please select at least one investment type."
  else if geography = [] then
    .showError "⚠️ Please select at least one geographic focus area."
  else
    .runAnalysis ⟨amount, currency, String.intercalate ", " geography,
      String.intercalate ", " preferences, risk_tolerance, time_horizon⟩

/-- Button handler of `investment_advisor_app_claude.main`. -/
def claude_button_click (claude_api_key serper_key : String) (amount : ℕ)
    (currency : String) (geography preferences : List String)
    (risk_tolerance : String) (time_horizon : ℕ) : UiAction :=
  if claude_api_key = "" || serper_key = "" then
    .showError "⚠️ Please provide both Anthropic and Serper API keys in the sidebar."
  else if preferences = [] then
    .showError "⚠️ Please select at least one investment preference."
  else if geography = [] then
    .showError "⚠️ Please select at least one geographic preference."
  else
    .runAnalysis ⟨amount, currency, String.intercalate ", " geography,
      String.intercalate ", " preferences, risk_tolerance, time_horizon⟩

/-- `os.getenv(key, "")` against an abstract environment. -/
def getenvD (env : String → Option String) (key : String) : String :=
  (env key).getD ""

/-- Default value of the primary-key text input in
`investment_advisor_app.main` and `investment_advisor_final.main`. -/
def openai_default_key (env : String → Option String) : String :=
  getenvD env "OPENAI_API_KEY"

/-- Default value of the search-key text input in all three apps. -/
def serper_default_key (env : String → Option String) : String :=
  getenvD env "SERPER_API_KEY"

/-- Default value of the model-key text input in
`investment_advisor_app_claude.main`. -/
def anthropic_default_key (env : String → Option String) : String :=
  getenvD env "ANTHROPIC_API_KEY"

/-! ### Claim C6 -/

/-- C6: in every app file, a report-generation click with either
credential empty shows an error and never invokes the analysis runner,
so the external orchestration call is unreachable without both
credentials; the default credential values are the environment values
(empty when unset). -/
theorem C6_credentials_gate (env : String → Option String)
    (api_key search_key : String) (amount : ℕ) (currency : String)
    (geography preferences : List String) (risk_tolerance : String)
    (time_horizon : ℕ) (hempty : api_key = "" ∨ search_key = "") :
    (∃ m, app_button_click api_key search_key amount currency geography preferences
        risk_tolerance time_horizon = .showError m) ∧
    (∀ d, app_button_click api_key search_key amount currency geography preferences
        risk_tolerance time_horizon ≠ .runAnalysis d) ∧
    (∃ m, final_button_click api_key search_key amount currency geography preferences
        risk_tolerance time_horizon = .showError m) ∧
    (∀ d, final_button_click api_key search_key amount currency geography preferences
        risk_tolerance time_horizon ≠ .runAnalysis d) ∧
    (∃ m, claude_button_click api_key search_key amount currency geography preferences
        risk_tolerance time_horizon = .showError m) ∧
    (∀ d, claude_button_click api_key search_key amount currency geography preferences
        risk_tolerance time_horizon ≠ .runAnalysis d) ∧
    openai_default_key env = (env "OPENAI_API_KEY").getD "" ∧
    serper_default_key env = (env "SERPER_API_KEY").getD "" ∧
    anthropic_default_key env = (env "ANTHROPIC_API_KEY").getD "" := by
  have hcond : (api_key = "" || search_key = "") = true := by
    rcases hempty with h | h <;> simp [h]
  have happ : app_button_click api_key search_key amount currency geography preferences
      risk_tolerance time_horizon = .showError "⚠️ Provide credentials in sidebar." := by
    simp [app_button_click, hcond]
  have hfinal : final_button_click api_key search_key amount currency geography preferences
      risk_tolerance time_horizon =
        .showError "⚠️ Please provide your access credentials in the sidebar." := by
    simp [final_button_click, hcond]
  have hclaude : claude_button_click api_key search_key amount currency geography preferences
      risk_tolerance time_horizon =
        .showError "⚠️ Please provide both Anthropic and Serper API keys in the sidebar." := by
    simp [claude_button_click, hcond]
  exact ⟨⟨_, happ⟩, fun d => by rw [happ]; simp,
    ⟨_, hfinal⟩, fun d => by rw [hfinal]; simp,
    ⟨_, hclaude⟩, fun d => by rw [hclaude]; simp, rfl, rfl, rfl⟩

/-- Witness for C6 with an empty model key. -/
theorem C6_credentials_gate_witness :
    (∃ m, app_button_click "" "sk" 1000 "USD" ["Local/Domestic"] ["ETFs"]
        "Medium" 10 = .showError m) ∧
    (∀ d, app_button_click "" "sk" 1000 "USD" ["Local/Domestic"] ["ETFs"]
        "Medium" 10 ≠ .runAnalysis d) ∧
    (∃ m, final_button_click "" "sk" 1000 "USD" ["Local/Domestic"] ["ETFs"]
        "Medium" 10 = .showError m) ∧
    (∀ d, final_button_click "" "sk" 1000 "USD" ["Local/Domestic"] ["ETFs"]
        "Medium" 10 ≠ .runAnalysis d) ∧
    (∃ m, claude_button_click "" "sk" 1000 "USD" ["Local/Domestic"] ["ETFs"]
        "Medium" 10 = .showError m) ∧
    (∀ d, claude_button_click "" "sk" 1000 "USD" ["Local/Domestic"] ["ETFs"]
        "Medium" 10 ≠ .runAnalysis d) ∧
    openai_default_key (fun _ => none) = ((fun _ => none : String → Option String)
      "OPENAI_API_KEY").getD "" ∧
    serper_default_key (fun _ => none) = ((fun _ => none : String → Option String)
      "SERPER_API_KEY").getD "" ∧
    anthropic_default_key (fun _ => none) = ((fun _ => none : String → Option String)
      "ANTHROPIC_API_KEY").getD "" :=
  C6_credentials_gate (fun _ => none) "" "sk" 1000 "USD" ["Local/Domestic"] ["ETFs"]
    "Medium" 10 (Or.inl rfl)

/-! ## Task descriptions built by create_tasks -/

/-- The first list is a contiguous substring of the second. -/
def substrOf (needle hay : String) : Prop := needle.data <:+: hay.data

/-- A list is a substring of itself followed by anything. -/
theorem substr_head (x t : List Char) : x <:+: x ++ t := ⟨[], t, rfl⟩

/-- Substring containment survives prepending. -/
theorem substr_tail {x h : List Char} (l : List Char) (hx : x <:+: h) : x <:+: l ++ h := by
  obtain ⟨s, t, rfl⟩ := hx
  exact ⟨l ++ s, t, by simp⟩

/-- Task 1 description of `investment_advisor_app.create_tasks`. -/
def app_task1_desc (d : RequestData) : String :=
  "Research 3-5 specific investments for " ++ (toString d.amount ++ (" " ++ (d.currency ++
    (". Focus: " ++ (d.preferences ++ (". Geography: " ++ (d.geography ++ (". Risk: " ++
    (d.risk_tolerance ++ ". Provide: names, tickers, prices, 6-month performance.")))))))))

/-- Task 2 description of `investment_advisor_app.create_tasks`. -/
def app_task2_desc (d : RequestData) : String :=
  "Create " ++ (toString d.time_horizon ++ ("-year projections for " ++ (toString d.amount ++
    (" " ++ (d.currency ++
    ". Calculate conservative, expected, and optimistic scenarios with specific numbers.")))))

/-- Task 3 description of `investment_advisor_app.create_tasks`. -/
def app_task3_desc (d : RequestData) : String :=
  "Assess risks for " ++ (d.risk_tolerance ++
    " risk tolerance. Provide risk ratings and specific mitigation strategies.")

/-- Task 4 description of `investment_advisor_app.create_tasks` (constant). -/
def app_task4_desc (_ : RequestData) : String :=
  "Create final recommendations with: 1) Ranked investments, " ++
    ("2) Allocation percentages (totaling 100%), " ++ ("3) Expected returns, " ++
    "4) Action steps."))

/-- Task 1 description of `investment_advisor_final.create_tasks`. -/
def final_task1_desc (d : RequestData) : String :=
  "Research investment opportunities for " ++ (toString d.amount ++ (" " ++ (d.currency ++
    (" focusing on " ++ (d.preferences ++ (" in " ++ (d.geography ++
    " markets. Find top opportunities with recent performance data.")))))))

/-- Task 2 description of `investment_advisor_final.create_tasks`. -/
def final_task2_desc (d : RequestData) : String :=
  "Analyze opportunities and create " ++ (toString d.time_horizon ++
    ("-year ROI projections for " ++ (toString d.amount ++ (" " ++ (d.currency ++
    ". Calculate multiple scenarios.")))))

/-- Task 3 description of `investment_advisor_final.create_tasks`. -/
def final_task3_desc (d : RequestData) : String :=
  "Assess risks for each option considering " ++ (d.risk_tolerance ++
    " risk tolerance. Provide ratings and mitigation strategies.")

/-- Task 4 description of `investment_advisor_final.create_tasks`. -/
def final_task4_desc (d : RequestData) : String :=
  "Create final investment recommendations for " ++ (toString d.amount ++ (" " ++
    (d.currency ++ (" with " ++ (d.risk_tolerance ++ (" risk tolerance and " ++
    (toString d.time_horizon ++ "-year horizon. Rank top options.")))))))

/-- Research task description of `investment_advisor_app_claude.create_tasks`. -/
def claude_research_desc (d : RequestData) : String :=
  "Research current investment opportunities for an investment amount of " ++
    (toString d.amount ++ (" " ++ (d.currency ++ (". Focus on: " ++ (d.preferences ++
    (". Geographic preference: " ++ (d.geography ++
    (". Find the top 5-7 investment options in each category. " ++
    ("Include recent 6-month performance data and current market conditions. " ++
    "Identify top companies or opportunities in each sector.")))))))))

/-- Analysis task description of `investment_advisor_app_claude.create_tasks`. -/
def claude_analysis_desc (d : RequestData) : String :=
  "Analyze the investment opportunities identified and create ROI projections " ++
    ("for 1-10 years for the investment amount of " ++ (toString d.amount ++ (" " ++
    (d.currency ++ (". Use historical data and current market trends. " ++
    ("Calculate best-case, average-case, and worst-case scenarios. " ++
    "Include factors like compound growth, dividends, and market volatility."))))))

/-- Risk task description of `investment_advisor_app_claude.create_tasks`. -/
def claude_risk_desc (d : RequestData) : String :=
  "Evaluate risks for each recommended investment option. " ++
    ("Consider the user\x27s risk tolerance: " ++ (d.risk_tolerance ++
    (". Analyze market volatility, liquidity, regulatory risks, and external factors. " ++
    "Provide risk ratings (Low/Medium/High) for each option.")))

/-- Recommendation task description of `investment_advisor_app_claude.create_tasks`. -/
def claude_recommendation_desc (d : RequestData) : String :=
  "Synthesize all research, analysis, and risk assessments to provide " ++
    ("final investment recommendations. Rank the top 3-5 options. " ++
    ("Provide clear rationale for each recommendation. " ++
    ("Consider investment amount: " ++ (toString d.amount ++ (" " ++ (d.currency ++
    (", risk tolerance: " ++ (d.risk_tolerance ++ (", and time horizon: " ++
    (toString d.time_horizon ++ " years."))))))))))

/-! ### Claim C7 -/

/-- C7: for every request, each of the six field values (numbers in
their decimal rendering) occurs verbatim in at least one of the four
task descriptions, in each of the three app files. -/
theorem C7_fields_in_descriptions (d : RequestData) :
    (substrOf (toString d.amount) (app_task1_desc d) ∧
     substrOf d.currency (app_task1_desc d) ∧
     substrOf d.preferences (app_task1_desc d) ∧
     substrOf d.geography (app_task1_desc d) ∧
     substrOf d.risk_tolerance (app_task1_desc d) ∧
     substrOf (toString d.time_horizon) (app_task2_desc d)) ∧
    (substrOf (toString d.amount) (final_task1_desc d) ∧
     substrOf d.currency (final_task1_desc d) ∧
     substrOf d.preferences (final_task1_desc d) ∧
     substrOf d.geography (final_task1_desc d) ∧
     substrOf d.risk_tolerance (final_task3_desc d) ∧
     substrOf (toString d.time_horizon) (final_task2_desc d)) ∧
    (substrOf (toString d.amount) (claude_research_desc d) ∧
     substrOf d.currency (claude_research_desc d) ∧
     substrOf d.preferences (claude_research_desc d) ∧
     substrOf d.geography (claude_research_desc d) ∧
     substrOf d.risk_tolerance (claude_risk_desc d) ∧
     substrOf (toString d.time_horizon) (claude_recommendation_desc d)) := by
  refine ⟨⟨?_, ?_, ?_, ?_, ?_, ?_⟩, ⟨?_, ?_, ?_, ?_, ?_, ?_⟩, ⟨?_, ?_, ?_, ?_, ?_, ?_⟩⟩ <;>
    (simp only [substrOf, app_task1_desc, app_task2_desc, final_task1_desc, final_task2_desc,
      final_task3_desc, claude_research_desc, claude_risk_desc, claude_recommendation_desc,
      String.data_append]
     repeat first | exact substr_head _ _ | apply substr_tail)
